import Mathlib

/-!
Shallow embedding of the device-coordination core of
`stoqserver/lib/restful.py` (stoq-server), together with theorems checking
the natural-language specification against it.

The embedding covers:
* `_BaseResource.ensure_printer` (printer probe + bounded retry recovery);
* `EventStream.put` (per-station event queues gated by the `has_stream` flag);
* `TefResource.post` (till check, printer check, driver dispatch, terminal
  event) modelled as an action trace;
* `TefReplyResource.post` and the question/reply protocol
  (`waiting_reply` flag, `reply` queue, pinpad lock) modelled as a labelled
  transition system;
* `check_drawer_loop` (edge-triggered drawer poller).

Python exceptions are modelled with `Except`/`Option`, the external printer
device as a sequence of probe outcomes (one entry consumed per
`is_drawer_open` call), and blocking as the absence of an enabled
transition.
-/

namespace StoqServer

/-! ## Printer device model and `ensure_printer`

`ensure_printer(station, retries)` probes the printer with
`printer.is_drawer_open()`.  The external device is modelled as a function
from call index to outcome: each call to `is_drawer_open` (or to reopening
`api.device_manager.printer` followed by the probe) consumes the next
outcome. -/

/-- Outcome of one `printer.is_drawer_open()` probe (reopening included):
either a drawer reading, or one of the two transport-level exceptions the
source mentions. -/
inductive ProbeResult where
  | ok (drawerOpen : Bool)
  | serialExc
  | invalidReplyExc
  deriving DecidableEq, Repr

/-- The exception types relevant to `ensure_printer`:
`SerialException` and `InvalidReplyException`. -/
inductive PrinterExc where
  | serial
  | invalidReply
  deriving DecidableEq, Repr

/-- Result of a call to `ensure_printer`: either an exception propagates, or
the call returns `None` (no printer configured) or the drawer state; we also
count the `gevent.sleep(1)` calls performed. -/
structure EnsureResult where
  result : Except PrinterExc (Option Bool)
  sleeps : Nat
  deriving Repr

/-- The `for i in range(retries)` recovery loop of `ensure_printer`:
each iteration reopens the device and probes (`probe idx`); `break` on
success, `gevent.sleep(1)` on `SerialException`; any other exception
(`InvalidReplyException` included) propagates out of the loop.  The
`for`/`else` branch re-raises the original exception `orig` when the loop
exhausts `retries` without a `break`.  After a `break`, the function
invalidates plugin-cached printers and returns a fresh
`printer.is_drawer_open()` probe (`probe (idx+1)`), whose exceptions are not
caught. -/
def ensureRetryLoop (probe : Nat → ProbeResult) (orig : PrinterExc) (idx : Nat) :
    Nat → EnsureResult
  | 0 => ⟨.error orig, 0⟩
  | n + 1 =>
    match probe idx with
    | .ok _ =>
      match probe (idx + 1) with
      | .ok b => ⟨.ok (some b), 0⟩
      | .serialExc => ⟨.error .serial, 0⟩
      | .invalidReplyExc => ⟨.error .invalidReply, 0⟩
    | .serialExc =>
      let r := ensureRetryLoop probe orig (idx + 1) n
      ⟨r.result, r.sleeps + 1⟩
    | .invalidReplyExc => ⟨.error .invalidReply, 0⟩

/-- The method `_BaseResource.ensure_printer(station, retries)`.  Here `deviceConfigured`
models `DeviceSettings.get_by_station_and_type(...)` being non-`None`;
if it is `None` the method returns `None` at once.  Otherwise the initial
probe (`probe 0`) either returns the drawer state, or raises
`SerialException`/`InvalidReplyException`, entering the recovery loop with
the original exception remembered. -/
def ensure_printer (deviceConfigured : Bool) (probe : Nat → ProbeResult)
    (retries : Nat) : EnsureResult :=
  if !deviceConfigured then ⟨.ok none, 0⟩
  else
    match probe 0 with
    | .ok b => ⟨.ok (some b), 0⟩
    | .serialExc => ensureRetryLoop probe .serial 1 retries
    | .invalidReplyExc => ensureRetryLoop probe .invalidReply 1 retries

/-- A simulated device that fails with `SerialException` on its first
`failCount` probes and reports drawer state `b` from then on. -/
def serialThenOk (failCount : Nat) (b : Bool) : Nat → ProbeResult :=
  fun i => if i < failCount then .serialExc else .ok b

/-- A simulated device whose first probe raises `InvalidReplyException`,
whose next `serialCount` probes raise `SerialException`, and which reports
drawer state `b` from then on. -/
def invalidThenSerial (serialCount : Nat) (b : Bool) : Nat → ProbeResult :=
  fun i =>
    if i = 0 then .invalidReplyExc
    else if i < serialCount + 1 then .serialExc
    else .ok b

/-- A simulated device whose first two probes raise `InvalidReplyException`
and which reports drawer state `b` from then on. -/
def invalidTwiceThenOk (b : Bool) : Nat → ProbeResult :=
  fun i => if i < 2 then .invalidReplyExc else .ok b

/-! ## Events

The events this core pushes through `EventStream`.  Python values appearing
in event payloads (driver return values, exception arguments, question data)
are modelled by `PyVal`; the `success` field of `TEF_OPERATION_FINISHED`,
which the source sets either to the boolean `False` or to the driver's
return value `retval` (a mapping), is modelled by `PyRet`. -/

/-- A JSON-serializable Python scalar appearing in event payloads. -/
inductive PyVal where
  | pyBool (b : Bool)
  | pyStr (s : String)
  | pyNone
  deriving DecidableEq, Repr

/-- The value of the `success` field of a `TEF_OPERATION_FINISHED` event:
either a Python boolean, or the driver's returned mapping (`retval`),
modelled as an association list. -/
inductive PyRet where
  | ofBool (b : Bool)
  | ofRetval (retval : List (String × PyVal))
  deriving DecidableEq, Repr

/-- The stream events relevant to the verified claims. -/
inductive SEvent where
  | tefFinished (success : PyRet) (message : PyVal)
  | tefDisplayMessage (message : PyVal) (canAbort : Bool)
  | tefAskQuestion (data : PyVal)
  | drawerAlertOpen
  | drawerAlertClose
  | drawerAlertError
  | deviceStatusChanged (device : String) (status : Option Bool)
  deriving DecidableEq, Repr

/-! ## Drawer poller (`check_drawer_loop`)

`check_drawer()` returns `True`/`False` (drawer reading) or `None` (probe
failed, or no printer configured); a poll outcome is an `Option Bool`.  The
loop keeps the last observation in `is_open`, initialized to the sentinel
`''` which differs from all three outcomes; the sentinel-or-observation
state is `Option (Option Bool)` with `none` as the sentinel. -/

/-- The drawer-specific alert chosen by `check_drawer_loop`'s `message`
dict: `True ↦ DRAWER_ALERT_OPEN`, `False ↦ DRAWER_ALERT_CLOSE`,
`None ↦ DRAWER_ALERT_ERROR`. -/
def drawerAlert : Option Bool → SEvent
  | some true => .drawerAlertOpen
  | some false => .drawerAlertClose
  | none => .drawerAlertError

/-- One iteration of `check_drawer_loop`'s body on observation `new`:
if it differs from the stored `is_open`, emit the drawer alert and a
`DEVICE_STATUS_CHANGED` for the printer (`status_printer` is `None` when the
probe failed, `True` otherwise) and store `new`; otherwise emit nothing. -/
def drawerStep (is_open : Option (Option Bool)) (new : Option Bool) :
    Option (Option Bool) × List SEvent :=
  if is_open = some new then (is_open, [])
  else
    (some new,
      [drawerAlert new,
       .deviceStatusChanged "printer" (if new = none then none else some true)])

/-- Events emitted by `check_drawer_loop` over a finite sequence of poll
outcomes, starting from the stored state `st`. -/
def drawerRunFrom (st : Option (Option Bool)) : List (Option Bool) → List SEvent
  | [] => []
  | new :: rest =>
    let (st', evs) := drawerStep st new
    evs ++ drawerRunFrom st' rest

/-- Events emitted by `check_drawer_loop` over a finite sequence of poll
outcomes, starting from the sentinel (`is_open = ''`). -/
def drawerRun (probes : List (Option Bool)) : List SEvent :=
  drawerRunFrom none probes

/-- Whether an event is one of the three drawer alerts. -/
def isDrawerAlert : SEvent → Bool
  | .drawerAlertOpen => true
  | .drawerAlertClose => true
  | .drawerAlertError => true
  | _ => false

/-- Whether an event is a `DEVICE_STATUS_CHANGED`. -/
def isDeviceStatusChanged : SEvent → Bool
  | .deviceStatusChanged _ _ => true
  | _ => false

/-- Number of changes in a poll sequence relative to the last observation
`st` (`none` = the initial sentinel, so the first observation always counts
as a change). -/
def countChangesFrom (st : Option (Option Bool)) : List (Option Bool) → Nat
  | [] => 0
  | new :: rest =>
    if st = some new then countChangesFrom st rest
    else countChangesFrom (some new) rest + 1

/-- Number of changes in a poll sequence, the first observation counting as
a change from the initial sentinel. -/
def countChanges (probes : List (Option Bool)) : Nat :=
  countChangesFrom none probes

/-- The subsequence of observations that differ from their predecessor
(relative to last observation `st`); these are the polls on which
`check_drawer_loop` emits events. -/
def changedObsFrom (st : Option (Option Bool)) : List (Option Bool) → List (Option Bool)
  | [] => []
  | new :: rest =>
    if st = some new then changedObsFrom st rest
    else new :: changedObsFrom (some new) rest

/-- Modelled from the spec's words for the C9 comparison: the number of
flips of the fault/not-fault condition (`isNone` of the observation) along a
poll sequence, the first observation counting as a flip from the unknown
initial condition. -/
def countFaultFlipsFrom (st : Option Bool) : List (Option Bool) → Nat
  | [] => 0
  | new :: rest =>
    if st = some new.isNone then countFaultFlipsFrom st rest
    else countFaultFlipsFrom (some new.isNone) rest + 1

/-- Modelled from the spec's words for the C9 comparison (see
`countFaultFlipsFrom`). -/
def countFaultFlips (probes : List (Option Bool)) : Nat :=
  countFaultFlipsFrom none probes

/-! ## `EventStream`

Class state: `_streams` (station id → queue, an association list; a queue is
the list of not-yet-drained events in FIFO order, `put` appends at the
back) and `has_stream` (a gevent `Event`, set on first subscription, never
cleared).  `EventStream.put` first does `has_stream.wait()`: with the flag
unset the caller blocks, modelled as `none` (no result, no state change
observable). -/

/-- The `EventStream` class state. -/
structure StreamState where
  has_stream : Bool
  streams : List (Nat × List SEvent)
  deriving DecidableEq, Repr

/-- Append `data` to the queue of station `sid` if that station has a queue
registered; leave `_streams` unchanged otherwise (`stream = cls._streams.get(station.id)`;
`if stream: stream.put(data)`). -/
def putStream : List (Nat × List SEvent) → Nat → SEvent → List (Nat × List SEvent)
  | [], _, _ => []
  | (k, q) :: rest, sid, data =>
    if k = sid then (k, q ++ [data]) :: rest
    else (k, q) :: putStream rest sid data

/-- The classmethod `EventStream.put(station, data)`: wait for `has_stream` (blocked —
`none` — while it is unset), then enqueue on the station's queue if one
exists. -/
def EventStream.put (st : StreamState) (sid : Nat) (data : SEvent) :
    Option StreamState :=
  if !st.has_stream then none
  else some { st with streams := putStream st.streams sid data }

/-- Look up the queue of station `sid` in `_streams`. -/
def lookupStream : List (Nat × List SEvent) → Nat → Option (List SEvent)
  | [], _ => none
  | (k, q) :: rest, sid => if k = sid then some q else lookupStream rest sid

/-! ## TEF question/reply endpoint (`TefReplyResource.post`)

Global state touched by the endpoint: `TefResource.waiting_reply` (a gevent
`Event`) and `TefResource.reply` (an unbounded gevent `Queue`), plus the
event-stream state (which the endpoint never touches).  The endpoint
asserts `waiting_reply.is_set()` and then puts the decoded value on the
reply queue; a failed assert raises before any mutation. -/

/-- The precondition violation raised by
`assert TefResource.waiting_reply.is_set()`. -/
inductive AssertErr where
  | assertionError
  deriving DecidableEq, Repr

/-- Process-global TEF state seen by `TefReplyResource.post`. -/
structure TefGlobal where
  waiting_reply : Bool
  reply : List PyVal
  stream : StreamState
  deriving DecidableEq, Repr

/-- The endpoint `TefReplyResource.post`: assert that a question is pending, then enqueue
the decoded reply value.  Returns the raised error (if any) together with
the state after the call. -/
def tefReplyPost (g : TefGlobal) (value : PyVal) : Option AssertErr × TefGlobal :=
  if !g.waiting_reply then (some .assertionError, g)
  else (none, { g with reply := g.reply ++ [value] })

/-! ## `TefResource.post` as an action trace

The request handler is modelled as the sequence of externally observable
actions it performs, as a function of: the operation name, whether the
station has an open till, whether the printer check (`ensure_printer` under
`_printer_lock`) succeeds, and the driver outcome of
`operation_signal.send`. -/

/-- Observable actions of one `TefResource.post` request. -/
inductive TefAction where
  | raiseTillError
  | acquirePrinterLock
  | ensurePrinterCall (ok : Bool)
  | releasePrinterLock
  | invokeDriver
  | pushEvent (e : SEvent)
  deriving DecidableEq, Repr

/-- Outcome of `operation_signal.send(station=station, **data)[0][1]`:
either the driver returns `retval` (a mapping), or it raises an exception
carrying `args`. -/
inductive DriverOutcome where
  | success (retval : List (String × PyVal))
  | failure (args : List PyVal)
  deriving DecidableEq, Repr

/-- The `e.args`-based message extraction of the `except` branch:
`e.args[1]` when the exception carries exactly two arguments, the generic
fallback `'Falha na operação'` otherwise. -/
def failureMessage : List PyVal → PyVal
  | [_, m] => m
  | _ => .pyStr "Falha na operação"

/-- The operation kinds exempt from the till check. -/
def noTillSignals : List String :=
  ["StartTefSaleSummaryEvent", "StartTefAdminEvent"]

/-- The handler `TefResource.post(store, signal_name)` as an action trace.

* Till check: for `signal_name` outside `noTillSignals`, a missing or
  non-open till raises `TillError` at once.
* Printer check: `with _printer_lock: self.ensure_printer(station)`; any
  exception is caught and turned into a failed terminal event with the
  fixed message `'Erro comunicando com a impressora'`.
* Dispatch: `retval = operation_signal.send(...)[0][1]` then
  `message = retval['message']`, both inside the `try`: a driver exception,
  or a missing `'message'` key (a `KeyError`, whose `args` has one
  element), selects `retval = False` and the `failureMessage` of the
  exception's `args`.
* One terminal `TEF_OPERATION_FINISHED` event is pushed with `retval` as
  `success` and the resolved message. -/
def tef_post (signal_name : String) (tillOpen : Bool) (printerOk : Bool)
    (driver : DriverOutcome) : List TefAction :=
  if signal_name ∉ noTillSignals ∧ ¬tillOpen then [.raiseTillError]
  else if !printerOk then
    [.acquirePrinterLock, .ensurePrinterCall false, .releasePrinterLock,
     .pushEvent (.tefFinished (.ofBool false)
       (.pyStr "Erro comunicando com a impressora"))]
  else
    [.acquirePrinterLock, .ensurePrinterCall true, .releasePrinterLock,
     .invokeDriver] ++
    match driver with
    | .success retval =>
      match retval.lookup "message" with
      | some m => [.pushEvent (.tefFinished (.ofRetval retval) m)]
      | none =>
        [.pushEvent (.tefFinished (.ofBool false)
          (failureMessage [.pyStr "message"]))]
    | .failure args =>
      [.pushEvent (.tefFinished (.ofBool false) (failureMessage args))]

/-- Whether an action pushes a `TEF_OPERATION_FINISHED` event. -/
def isFinishedPush : TefAction → Bool
  | .pushEvent (.tefFinished _ _) => true
  | _ => false

/-- Whether a `PyRet` is a Python boolean. -/
def PyRet.isBool : PyRet → Bool
  | .ofBool _ => true
  | .ofRetval _ => false

/-! ## The question/reply protocol as a transition system

The process-global pieces: the pinpad lock (`@lock_pinpad(block=True)` on
`TefResource.post`, so at most one TEF request handler runs at a time — a
second request blocks until the lock is free), the class-level
`waiting_reply` event and the class-level `reply` queue (`Queue()`, an
unbounded gevent queue).  A running handler is either executing the driver
(`dispatching`) or blocked inside `_question_callback` on `reply.get()`
(`awaiting`); `_question_callback` publishes the `TEF_ASK_QUESTION` event,
sets `waiting_reply`, blocks on `reply.get()`, and clears `waiting_reply`
after the reply arrives.  `TefReplyResource.post` asserts `waiting_reply`
and puts the decoded value on the queue; since the queue is unbounded the
put never blocks.  Reply payloads are opaque and modelled as `Nat`. -/

/-- Global protocol state: the pinpad lock, how many handlers are running
the driver (`dispatching`) or blocked on `reply.get()` (`awaiting`), the
`waiting_reply` flag, the pending values of the `reply` queue in FIFO
order, and history counters of questions published
(`TEF_ASK_QUESTION` events) and replies consumed. -/
structure TefSys where
  pinpadLock : Bool
  dispatching : Nat
  awaiting : Nat
  waiting_reply : Bool
  replyQueue : List Nat
  questionsPublished : Nat
  questionsAnswered : Nat
  deriving DecidableEq, Repr

/-- The atomic protocol steps. -/
inductive TefOp where
  | startOp
  | askQuestion
  | submitReply (v : Nat)
  | consumeReply
  | endOp
  deriving DecidableEq, Repr

/-- The initial process state: lock free, no handler, flag clear, empty
queue. -/
def tefInit : TefSys :=
  ⟨false, 0, 0, false, [], 0, 0⟩

/-- One protocol step; `none` when the step is not enabled (the caller
blocks or the assert fires).

* `startOp` — a `TefResource.post` request acquires the pinpad lock
  (blocking) and enters dispatch.
* `askQuestion` — a dispatching handler's driver calls
  `_question_callback`: the question event is published, `waiting_reply` is
  set, and the handler blocks on `reply.get()`.
* `submitReply v` — `TefReplyResource.post`: enabled exactly when
  `waiting_reply` is set (the assert), appends `v` to the unbounded reply
  queue.
* `consumeReply` — the blocked `reply.get()` returns the queue head;
  `waiting_reply` is cleared and the handler resumes dispatch.
* `endOp` — the driver returns or raises; the handler emits its terminal
  event and releases the pinpad lock. -/
def tefStep (s : TefSys) : TefOp → Option TefSys
  | .startOp =>
    if s.pinpadLock then none
    else some { s with pinpadLock := true, dispatching := s.dispatching + 1 }
  | .askQuestion =>
    if s.dispatching = 0 then none
    else some { s with
      dispatching := s.dispatching - 1
      awaiting := s.awaiting + 1
      waiting_reply := true
      questionsPublished := s.questionsPublished + 1 }
  | .submitReply v =>
    if s.waiting_reply then some { s with replyQueue := s.replyQueue ++ [v] }
    else none
  | .consumeReply =>
    match s.replyQueue with
    | [] => none
    | _ :: rest =>
      if s.awaiting = 0 then none
      else some { s with
        awaiting := s.awaiting - 1
        dispatching := s.dispatching + 1
        replyQueue := rest
        waiting_reply := false
        questionsAnswered := s.questionsAnswered + 1 }
  | .endOp =>
    if s.dispatching = 0 then none
    else some { s with dispatching := s.dispatching - 1, pinpadLock := false }

/-- States reachable from `tefInit` by enabled steps. -/
inductive TefReach : TefSys → Prop where
  | init : TefReach tefInit
  | step {s s' : TefSys} (a : TefOp) :
      TefReach s → tefStep s a = some s' → TefReach s'

/-- C2: `ensure_printer` called with `retries = 3` on a device whose initial
probe and first two reopen attempts fail with `SerialException` but whose
third reopen attempt succeeds returns the drawer-open reading of the
recovered device and sleeps exactly 2 times; when all 3 reopen attempts fail
the original (first) fault is re-raised — with an `InvalidReplyException`
initial fault and `SerialException` retry faults, the propagated exception
is the original `InvalidReplyException`, not the last retry's
`SerialException`. -/
theorem C2_ensure_printer_retry :
    (∀ b : Bool, ensure_printer true (serialThenOk 3 b) 3 = ⟨.ok (some b), 2⟩) ∧
    (∀ b : Bool,
      ensure_printer true (invalidThenSerial 10 b) 3 = ⟨.error .invalidReply, 3⟩) := by
  constructor <;> intro b <;> cases b <;> rfl

/-- C10: in the recovery loop only `SerialException` is caught and retried.
A device whose initial probe raises `InvalidReplyException` does enter
recovery and, when the first reopen attempt succeeds, the call recovers
(first conjunct); but when a reopen attempt itself raises
`InvalidReplyException`, that exception propagates immediately with no
sleeps, aborting the remaining retries — even though later probes would have
succeeded (second conjunct). -/
theorem C10_retry_catches_only_serial :
    (∀ b : Bool, ensure_printer true (invalidThenSerial 0 b) 3 = ⟨.ok (some b), 0⟩) ∧
    (∀ b : Bool,
      ensure_printer true (invalidTwiceThenOk b) 3 = ⟨.error .invalidReply, 0⟩) := by
  constructor <;> intro b <;> cases b <;> rfl

lemma isDrawerAlert_drawerAlert (new : Option Bool) :
    isDrawerAlert (drawerAlert new) = true := by
  cases new with
  | none => rfl
  | some b => cases b <;> rfl

lemma isDrawerAlert_dsc (d : String) (s : Option Bool) :
    isDrawerAlert (.deviceStatusChanged d s) = false := rfl

lemma isDeviceStatusChanged_dsc (d : String) (s : Option Bool) :
    isDeviceStatusChanged (.deviceStatusChanged d s) = true := rfl

lemma isDeviceStatusChanged_drawerAlert (new : Option Bool) :
    isDeviceStatusChanged (drawerAlert new) = false := by
  cases new with
  | none => rfl
  | some b => cases b <;> rfl

lemma countP_isDrawerAlert_drawerRunFrom (probes : List (Option Bool)) :
    ∀ st, (drawerRunFrom st probes).countP (fun e => isDrawerAlert e) =
      countChangesFrom st probes := by
  induction probes with
  | nil => intro st; rfl
  | cons new rest ih =>
    intro st
    by_cases h : st = some new
    · simp [drawerRunFrom, drawerStep, countChangesFrom, h, ih]
    · simp [drawerRunFrom, drawerStep, countChangesFrom, h, ih,
        List.countP_cons, List.countP_append, isDrawerAlert_drawerAlert,
        isDrawerAlert_dsc]

lemma filter_isDeviceStatusChanged_drawerRunFrom (probes : List (Option Bool)) :
    ∀ st, (drawerRunFrom st probes).filter (fun e => isDeviceStatusChanged e) =
      (changedObsFrom st probes).map
        (fun o => SEvent.deviceStatusChanged "printer"
          (if o = none then none else some true)) := by
  induction probes with
  | nil => intro st; rfl
  | cons new rest ih =>
    intro st
    by_cases h : st = some new
    · simp [drawerRunFrom, drawerStep, changedObsFrom, h, ih]
    · simp [drawerRunFrom, drawerStep, changedObsFrom, h, ih,
        List.filter_cons, List.filter_append,
        isDeviceStatusChanged_drawerAlert, isDeviceStatusChanged_dsc]

/-- C8: for every finite sequence of drawer poll outcomes, the number of
drawer open/close/error alerts emitted by `check_drawer_loop` equals the
number of changes in the sequence (repeats emit nothing; the first
observation counts as a change from the sentinel); in particular the
sequence `[True, True, False, None, None]` emits exactly the three alerts
open, close, error, in that order. -/
theorem C8_drawer_alerts_count_changes :
    (∀ probes : List (Option Bool),
      (drawerRun probes).countP (fun e => isDrawerAlert e) = countChanges probes) ∧
    (drawerRun [some true, some true, some false, none, none]).filter
        (fun e => isDrawerAlert e) =
      [.drawerAlertOpen, .drawerAlertClose, .drawerAlertError] := by
  constructor
  · intro probes
    exact countP_isDrawerAlert_drawerRunFrom probes none
  · decide

/-- C9 counterexample: on the poll sequence `[True, False]` the loop emits
two `DEVICE_STATUS_CHANGED` events although the fault/not-fault condition
flips only once (at the first observation): the second change is
open→closed, within the not-fault condition, yet it re-announces the
printer status. -/
theorem C9_counterexample :
    (drawerRun [some true, some false]).countP (fun e => isDeviceStatusChanged e) ≠
      countFaultFlips [some true, some false] := by
  decide

/-- C9 (amended): `check_drawer_loop` emits a `DEVICE_STATUS_CHANGED` for
the printer exactly when the drawer observation changes — the same
condition as the drawer alerts, not only when the fault/not-fault condition
flips — and its `status` field is `None` exactly when the probe failed and
`True` otherwise. -/
theorem C9_device_status_on_every_change :
    ∀ probes : List (Option Bool),
      (drawerRun probes).filter (fun e => isDeviceStatusChanged e) =
        (changedObsFrom none probes).map
          (fun o => SEvent.deviceStatusChanged "printer"
            (if o = none then none else some true)) := by
  intro probes
  exact filter_isDeviceStatusChanged_drawerRunFrom probes none

lemma putStream_of_lookup_none (sid : Nat) (d : SEvent) :
    ∀ l : List (Nat × List SEvent), lookupStream l sid = none →
      putStream l sid d = l := by
  intro l
  induction l with
  | nil => intro _; rfl
  | cons kv rest ih =>
    intro h
    obtain ⟨k, q⟩ := kv
    by_cases hk : k = sid
    · simp [lookupStream, hk] at h
    · simp [lookupStream, hk] at h
      simp [putStream, hk, ih h]

lemma lookup_putStream_self (sid : Nat) (d : SEvent) (q : List SEvent) :
    ∀ l : List (Nat × List SEvent), lookupStream l sid = some q →
      lookupStream (putStream l sid d) sid = some (q ++ [d]) := by
  intro l
  induction l with
  | nil => intro h; simp [lookupStream] at h
  | cons kv rest ih =>
    intro h
    obtain ⟨k, q'⟩ := kv
    by_cases hk : k = sid
    · simp [lookupStream, hk] at h
      simp [putStream, lookupStream, hk, h]
    · simp [lookupStream, hk] at h
      simp [putStream, lookupStream, hk, ih h]

lemma lookup_putStream_other (sid sid' : Nat) (d : SEvent) (hne : sid' ≠ sid) :
    ∀ l : List (Nat × List SEvent),
      lookupStream (putStream l sid d) sid' = lookupStream l sid' := by
  intro l
  induction l with
  | nil => rfl
  | cons kv rest ih =>
    obtain ⟨k, q⟩ := kv
    by_cases hk : k = sid
    · subst hk
      have hk' : k ≠ sid' := fun h => hne h.symm
      simp [putStream, lookupStream, hk', ih]
    · simp [putStream, lookupStream, hk, ih]

/-- C4: `EventStream.put(station, data)` blocks (no transition) while the
process-wide `has_stream` flag is unset; once it is set, it appends `data`
at the back of the station's queue when one is registered — leaving every
other station's queue unchanged — and is a silent no-op (state unchanged,
no error) when the station has no queue. -/
theorem C4_put_gated_enqueue (st : StreamState) (sid : Nat) (data : SEvent) :
    (st.has_stream = false → EventStream.put st sid data = none) ∧
    (st.has_stream = true →
      EventStream.put st sid data =
        some { st with streams := putStream st.streams sid data }) ∧
    (lookupStream st.streams sid = none →
      putStream st.streams sid data = st.streams) ∧
    (∀ q, lookupStream st.streams sid = some q →
      lookupStream (putStream st.streams sid data) sid = some (q ++ [data])) ∧
    (∀ sid', sid' ≠ sid →
      lookupStream (putStream st.streams sid data) sid' =
        lookupStream st.streams sid') := by
  refine ⟨?_, ?_, ?_, ?_, ?_⟩
  · intro h; simp [EventStream.put, h]
  · intro h; simp [EventStream.put, h]
  · intro h; exact putStream_of_lookup_none sid data st.streams h
  · intro q h; exact lookup_putStream_self sid data q st.streams h
  · intro sid' h; exact lookup_putStream_other sid sid' data h st.streams

/-- Witness for C4 at concrete inputs: with the flag unset the put blocks;
with the flag set it appends to station 1's queue; a put to the
unregistered station 2 leaves the state unchanged. -/
theorem C4_put_gated_enqueue_witness :
    EventStream.put ⟨false, [(1, [])]⟩ 1 .drawerAlertOpen = none ∧
    EventStream.put ⟨true, [(1, [.drawerAlertOpen])]⟩ 1 .drawerAlertClose =
      some ⟨true, [(1, [.drawerAlertOpen, .drawerAlertClose])]⟩ ∧
    EventStream.put ⟨true, [(1, [])]⟩ 2 .drawerAlertOpen =
      some ⟨true, [(1, [])]⟩ := by
  refine ⟨(C4_put_gated_enqueue ⟨false, [(1, [])]⟩ 1 .drawerAlertOpen).1 rfl, ?_, ?_⟩
  · have h := (C4_put_gated_enqueue ⟨true, [(1, [.drawerAlertOpen])]⟩ 1
      .drawerAlertClose).2.1 rfl
    rw [h]; rfl
  · have h := (C4_put_gated_enqueue ⟨true, [(1, [])]⟩ 2 .drawerAlertOpen).2.1 rfl
    rw [h]; rfl

/-- C5: `TefReplyResource.post` invoked while `waiting_reply` is unset
fails with the assertion (precondition violation) and leaves the whole
state — the reply queue and every event queue — unchanged; in particular
no value is enqueued on the reply channel. -/
theorem C5_reply_requires_pending_question (g : TefGlobal) (v : PyVal)
    (h : g.waiting_reply = false) :
    tefReplyPost g v = (some .assertionError, g) := by
  simp [tefReplyPost, h]

/-- Witness for C5: a concrete state with no pending question rejects the
reply and is returned unchanged. -/
theorem C5_reply_requires_pending_question_witness :
    tefReplyPost ⟨false, [], ⟨true, [(1, [])]⟩⟩ (.pyStr "1") =
      (some .assertionError, ⟨false, [], ⟨true, [(1, [])]⟩⟩) :=
  C5_reply_requires_pending_question ⟨false, [], ⟨true, [(1, [])]⟩⟩ (.pyStr "1") rfl

lemma isFinishedPush_tefFinished (s : PyRet) (m : PyVal) :
    isFinishedPush (.pushEvent (.tefFinished s m)) = true := rfl

/-- C1 counterexample: a dispatched operation whose driver returns the
mapping `{'message': 'ok'}` resolves to one terminal event, but that
event's `success` field is the driver's return mapping `retval`, not a
Python boolean — refuting "containing a boolean success flag" on the
driver-success completion path. -/
theorem C1_counterexample :
    tef_post "StartTefAdminEvent" false true
        (.success [("message", .pyStr "ok")]) =
      [.acquirePrinterLock, .ensurePrinterCall true, .releasePrinterLock,
       .invokeDriver,
       .pushEvent (.tefFinished (.ofRetval [("message", .pyStr "ok")])
         (.pyStr "ok"))] ∧
    PyRet.isBool (.ofRetval [("message", .pyStr "ok")]) = false := by
  constructor
  · rfl
  · rfl

/-- C1 (amended): every interactive TEF operation request that passes the
till check resolves to exactly one terminal `TEF_OPERATION_FINISHED` event
pushed to the requesting station, on every completion path (driver success,
printer-check short-circuit, and driver failure); the event's `success`
field is the Python boolean `False` on the failure paths but is the
driver's return mapping (truthy, not a boolean) on driver success. -/
theorem C1_exactly_one_terminal_event (signal_name : String)
    (tillOpen printerOk : Bool) (driver : DriverOutcome)
    (h : signal_name ∈ noTillSignals ∨ tillOpen = true) :
    (tef_post signal_name tillOpen printerOk driver).countP
      (fun a => isFinishedPush a) = 1 := by
  have hnot : ¬(signal_name ∉ noTillSignals ∧ ¬tillOpen) := by
    rcases h with h | h
    · exact fun hc => hc.1 h
    · exact fun hc => hc.2 h
  unfold tef_post
  rw [if_neg hnot]
  cases printerOk with
  | false => rfl
  | true =>
    cases driver with
    | success retval =>
      cases hm : retval.lookup "message" with
      | none => simp [hm, List.countP_cons, isFinishedPush]
      | some m => simp [hm, List.countP_cons, isFinishedPush]
    | failure args => simp [List.countP_cons, isFinishedPush]

/-- Witness for C1 (amended): a concrete driver-failure run of an
operation kind exempt from the till check pushes exactly one terminal
event. -/
theorem C1_exactly_one_terminal_event_witness :
    (tef_post "StartTefAdminEvent" false true (.failure [])).countP
      (fun a => isFinishedPush a) = 1 :=
  C1_exactly_one_terminal_event "StartTefAdminEvent" false true (.failure [])
    (Or.inl (by decide))

/-- C6: when the driver raises during dispatch, the terminal event carries
`success = False` and a message equal to the exception's second argument
verbatim when the exception carries exactly two arguments, and the fixed
fallback `'Falha na operação'` for any other argument arity. -/
theorem C6_failure_message_extraction (signal_name : String) (tillOpen : Bool)
    (args : List PyVal) (h : signal_name ∈ noTillSignals ∨ tillOpen = true) :
    tef_post signal_name tillOpen true (.failure args) =
      [.acquirePrinterLock, .ensurePrinterCall true, .releasePrinterLock,
       .invokeDriver,
       .pushEvent (.tefFinished (.ofBool false) (failureMessage args))] ∧
    (∀ a m : PyVal, failureMessage [a, m] = m) ∧
    (∀ args' : List PyVal, args'.length ≠ 2 →
      failureMessage args' = .pyStr "Falha na operação") := by
  have hnot : ¬(signal_name ∉ noTillSignals ∧ ¬tillOpen) := by
    rcases h with h | h
    · exact fun hc => hc.1 h
    · exact fun hc => hc.2 h
  refine ⟨?_, fun a m => rfl, ?_⟩
  · unfold tef_post
    rw [if_neg hnot]
    rfl
  · intro args' hlen
    match args' with
    | [] => rfl
    | [_] => rfl
    | [_, _] => exact absurd rfl hlen
    | _ :: _ :: _ :: _ => rfl

/-- Witness for C6: a concrete driver failure with two arguments yields the
second verbatim; `[]`, one- and three-argument runs yield the fallback. -/
theorem C6_failure_message_extraction_witness :
    tef_post "StartTefAdminEvent" false true
        (.failure [.pyStr "code", .pyStr "cartão recusado"]) =
      [.acquirePrinterLock, .ensurePrinterCall true, .releasePrinterLock,
       .invokeDriver,
       .pushEvent (.tefFinished (.ofBool false) (.pyStr "cartão recusado"))] ∧
    failureMessage [.pyStr "only one"] = .pyStr "Falha na operação" := by
  have h := C6_failure_message_extraction "StartTefAdminEvent" false
    [.pyStr "code", .pyStr "cartão recusado"] (Or.inl (by decide))
  exact ⟨h.1, h.2.2 [.pyStr "only one"] (by decide)⟩

/-- C7: an interactive operation whose kind is outside the distinguished
no-till-required set (`StartTefSaleSummaryEvent`, `StartTefAdminEvent`),
issued for a station with no open till, raises the till-precondition error
at once: the trace is exactly the raise, with no printer-lock acquisition,
no `ensure_printer` call, no driver invocation and no pushed event. -/
theorem C7_till_check_short_circuit (signal_name : String) (printerOk : Bool)
    (driver : DriverOutcome) (h : signal_name ∉ noTillSignals) :
    tef_post signal_name false printerOk driver = [.raiseTillError] ∧
    TefAction.acquirePrinterLock ∉ tef_post signal_name false printerOk driver ∧
    (∀ ok : Bool,
      TefAction.ensurePrinterCall ok ∉ tef_post signal_name false printerOk driver) ∧
    TefAction.invokeDriver ∉ tef_post signal_name false printerOk driver ∧
    (∀ e : SEvent,
      TefAction.pushEvent e ∉ tef_post signal_name false printerOk driver) := by
  have htrace : tef_post signal_name false printerOk driver = [.raiseTillError] := by
    unfold tef_post
    rw [if_pos ⟨h, by simp⟩]
  refine ⟨htrace, ?_, ?_, ?_, ?_⟩ <;> simp [htrace]

/-- Witness for C7: the concrete operation kind `StartTefSaleEvent` (not in
the no-till set) with no open till raises the till error and does nothing
else. -/
theorem C7_till_check_short_circuit_witness :
    tef_post "StartTefSaleEvent" false true (.failure []) = [.raiseTillError] ∧
    TefAction.invokeDriver ∉ tef_post "StartTefSaleEvent" false true (.failure []) := by
  have h := C7_till_check_short_circuit "StartTefSaleEvent" true (.failure [])
    (by decide)
  exact ⟨h.1, h.2.2.2.1⟩

/-- C3 counterexample: the reply channel does not have capacity exactly
one — `TefResource.reply = Queue()` is unbounded, and the reply endpoint's
only gate is the `waiting_reply` assert.  The state reached by starting an
operation, publishing one question, and submitting two replies while the
flag is set is reachable and holds two pending values on the reply
channel. -/
theorem C3_counterexample :
    TefReach ⟨true, 0, 1, true, [7, 8], 1, 0⟩ ∧
    (TefSys.replyQueue ⟨true, 0, 1, true, [7, 8], 1, 0⟩).length = 2 := by
  constructor
  · have h0 : TefReach tefInit := .init
    have h1 : TefReach ⟨true, 1, 0, false, [], 0, 0⟩ := .step .startOp h0 rfl
    have h2 : TefReach ⟨true, 0, 1, true, [], 1, 0⟩ := .step .askQuestion h1 rfl
    have h3 : TefReach ⟨true, 0, 1, true, [7], 1, 0⟩ :=
      .step (.submitReply 7) h2 rfl
    exact .step (.submitReply 8) h3 rfl
  · rfl

/-- C3 (amended): the reply channel is unbounded, so two replies submitted
while one question is pending both enqueue; what the protocol does
guarantee, in every reachable state: at most one request handler is in
flight (the blocking pinpad lock), hence at most one question is
outstanding process-wide (`awaiting ≤ 1`); a blocked question exists
exactly when `waiting_reply` is set; and while `waiting_reply` is set,
exactly one question has been published and not answered — so a reply is
accepted only strictly after its question's publication. -/
theorem C3_question_reply_protocol (s : TefSys) (h : TefReach s) :
    s.dispatching + s.awaiting ≤ 1 ∧
    (s.pinpadLock = false → s.dispatching = 0 ∧ s.awaiting = 0) ∧
    s.awaiting = (if s.waiting_reply then 1 else 0) ∧
    s.questionsPublished = s.questionsAnswered + s.awaiting := by
  induction h with
  | init => simp [tefInit]
  | @step s s' a _ hstep ih =>
    obtain ⟨lck, d, aw, wr, q, pub, ans⟩ := s
    obtain ⟨ih1, ih2, ih3, ih4⟩ := ih
    simp at ih1 ih2 ih3 ih4
    cases a with
    | startOp =>
      cases lck with
      | true => simp [tefStep] at hstep
      | false =>
        obtain ⟨hd0, ha0⟩ := ih2 rfl
        simp [tefStep] at hstep
        subst hstep
        refine ⟨by simp; omega, by simp, by simpa using ih3, by simpa using ih4⟩
    | askQuestion =>
      by_cases hd : d = 0
      · simp [tefStep, hd] at hstep
      · simp [tefStep, hd] at hstep
        subst hstep
        refine ⟨by simp; omega, ?_, by simp; omega, by simp; omega⟩
        intro hl
        simp at hl
        exact absurd (ih2 hl).1 hd
    | submitReply v =>
      cases wr with
      | false => simp [tefStep] at hstep
      | true =>
        simp [tefStep] at hstep
        subst hstep
        refine ⟨by simpa using ih1, ?_, by simpa using ih3, by simpa using ih4⟩
        intro hl
        simp at hl
        simpa using ih2 hl
    | consumeReply =>
      cases q with
      | nil => simp [tefStep] at hstep
      | cons v rest =>
        by_cases ha : aw = 0
        · simp [tefStep, ha] at hstep
        · simp [tefStep, ha] at hstep
          subst hstep
          refine ⟨by simp; omega, ?_, by simp; omega, by simp; omega⟩
          intro hl
          simp at hl
          exact absurd (ih2 hl).2 ha
    | endOp =>
      by_cases hd : d = 0
      · simp [tefStep, hd] at hstep
      · simp [tefStep, hd] at hstep
        subst hstep
        refine ⟨by simp; omega, ?_, by simpa using ih3, by simpa using ih4⟩
        intro _
        constructor
        · simp; omega
        · simp
          rcases Nat.lt_or_ge 0 aw with haw | haw
          · omega
          · omega

/-- Witness for C3 (amended): the invariant evaluated at the concrete
reachable state with one question outstanding. -/
theorem C3_question_reply_protocol_witness :
    (TefSys.dispatching ⟨true, 0, 1, true, [], 1, 0⟩ +
        TefSys.awaiting ⟨true, 0, 1, true, [], 1, 0⟩ ≤ 1) ∧
    (TefSys.pinpadLock ⟨true, 0, 1, true, [], 1, 0⟩ = false →
      TefSys.dispatching ⟨true, 0, 1, true, [], 1, 0⟩ = 0 ∧
        TefSys.awaiting ⟨true, 0, 1, true, [], 1, 0⟩ = 0) ∧
    TefSys.awaiting ⟨true, 0, 1, true, [], 1, 0⟩ =
      (if TefSys.waiting_reply ⟨true, 0, 1, true, [], 1, 0⟩ then 1 else 0) ∧
    TefSys.questionsPublished ⟨true, 0, 1, true, [], 1, 0⟩ =
      TefSys.questionsAnswered ⟨true, 0, 1, true, [], 1, 0⟩ +
        TefSys.awaiting ⟨true, 0, 1, true, [], 1, 0⟩ :=
  C3_question_reply_protocol ⟨true, 0, 1, true, [], 1, 0⟩
    (.step .askQuestion (.step .startOp .init rfl) rfl)

end StoqServer
